import Mathlib

/-!
# Work Claim & Orchestration Engine — verification development

Shallow embedding of the claim store / claim manager (`parallel_agent.py`,
class `IssueLockManager`), the session health check
(`analyze_session_health` / `calculate_productivity_score`), the classified
error recovery policy (`api_error_handler.py`), the provider pool
(`providers/pool.py`) and the round orchestrator (`BacklogState` /
`ParallelAgentManager.run_parallel`).

Modelling conventions:
* Timestamps are integers counting minutes (the claim-store code compares
  `datetime` values and uses a TTL expressed in minutes); `expires_at` is
  stored exactly as the code stores it (`claimed_at + TTL`).
* The persisted claim file (a JSON object keyed by the stringified issue
  number) is an association list `List (Nat × ClaimRec)`; dict semantics
  (one binding per key, lookup of the first binding, in-place update).
* Python string operations used by the code (`str.strip`, `str.upper`,
  substring membership `in`) are modelled on the character list of the
  string, character for character.
* All claim-manager operations run under the exclusive file lock, so the
  concurrent system is a serialized sequence of read-modify-write steps;
  sequential composition of the operations below is the exact semantics.
-/

namespace ClaimStore

/-- Claim status as stored in the claim file: `'claimed'` or `'failed'`
(`parallel_agent.py` writes only these two values). -/
inductive ClaimStatus where
  | claimed
  | failed
deriving DecidableEq, Repr

/-- One record of the persisted claim file
(`{session_id, claimed_at, expires_at, title, status, failure_count,
failed_at, failure_reasons}`).  `expiresAt` is optional because
`_cleanup_stale_claims` supports legacy records without the field. -/
structure ClaimRec where
  sessionId : String
  claimedAt : Int
  expiresAt : Option Int
  title : String
  status : ClaimStatus
  failureCount : Nat
  failedAt : Option Int
  failureReasons : List String
deriving DecidableEq, Repr

/-- The claim file: issue number ↦ record, as an association list. -/
abbrev Store := List (Nat × ClaimRec)

/-- Dict lookup: first binding of the key (`claims[key]` / `key in claims`). -/
def lookupClaim : Store → Nat → Option ClaimRec
  | [], _ => none
  | (k, c) :: rest, n => if k = n then some c else lookupClaim rest n

/-- Dict update `claims[key] = value`: replace the existing binding in
place, or append a fresh one. -/
def setClaim : Store → Nat → ClaimRec → Store
  | [], n, c => [(n, c)]
  | (k, c0) :: rest, n, c =>
      if k = n then (k, c) :: rest else (k, c0) :: setClaim rest n c

/-- Dict deletion `del claims[key]`. -/
def eraseClaim (s : Store) (n : Nat) : Store :=
  s.filter (fun kc => kc.1 ≠ n)

/-- Staleness test of `_cleanup_stale_claims`: records with an
`expires_at` field are stale once `now ≥ expires_at`; legacy records fall
back to `age > TTL`. -/
def isStale (now ttl : Int) (c : ClaimRec) : Bool :=
  match c.expiresAt with
  | some e => now ≥ e
  | none => now - c.claimedAt > ttl

/-- `_cleanup_stale_claims`: drop every stale record, keep the rest. -/
def cleanupStaleClaims (now ttl : Int) (s : Store) : Store :=
  s.filter (fun kc => ¬ isStale now ttl kc.2)

end ClaimStore

namespace PyStr

/-- Whitespace characters removed by Python `str.strip()`. -/
def isPySpace (c : Char) : Bool :=
  c = ' ' || c = '\t' || c = '\n' || c = '\r' || c = '\x0b' || c = '\x0c'

/-- Python `str.strip()` on the character list of a string. -/
def strip (s : String) : List Char :=
  ((s.data.dropWhile isPySpace).reverse.dropWhile isPySpace).reverse

/-- `len(s.strip())`. -/
def stripLen (s : String) : Nat := (strip s).length

/-- Substring containment on character lists (Python `pat in s`). -/
def subOccurs (pat : List Char) : List Char → Bool
  | [] => pat.isEmpty
  | c :: rest => pat.isPrefixOf (c :: rest) || subOccurs pat rest

/-- Python `pat in s` for strings. -/
def strContains (s pat : String) : Bool := subOccurs pat.data s.data

/-- Python `s.upper()` (ASCII case mapping suffices for the patterns the
code tests: `"[META]"`). -/
def upper (s : String) : String := ⟨s.data.map Char.toUpper⟩

end PyStr

namespace ClaimStore

open PyStr

/-- One open issue as returned by `_get_open_issues` (already sorted by
external label priority; the claim manager consumes the list in order). -/
structure Issue where
  number : Nat
  title : String
deriving DecidableEq, Repr

/-- `'[META]' in title.upper()`: the control/meta-issue filter of
`claim_issue`. -/
def isMetaTitle (title : String) : Bool :=
  strContains (upper title) "[META]"

/-- `_is_deprioritized`: an issue with `failure_count ≥ threshold`
(`FAILURE_DEPRIORITIZE_THRESHOLD`, default 3); issues without a record are
never deprioritized. -/
def isDeprioritized (claims : Store) (thr : Nat) (n : Nat) : Bool :=
  match lookupClaim claims n with
  | none => false
  | some c => c.failureCount ≥ thr

/-- One entry of `available_issues`: the issue plus its `deprioritized`
flag. -/
structure AvailItem where
  issue : Issue
  deprioritized : Bool
deriving DecidableEq, Repr

/-- The candidate-building loop of `claim_issue`: skip `[META]` issues,
skip issues whose record has status `'claimed'` (failed/absent records do
NOT exclude an issue), and annotate each survivor with its
deprioritization flag. -/
def availableIssues (claims : Store) (thr : Nat) (issues : List Issue) :
    List AvailItem :=
  issues.filterMap (fun iss =>
    if isMetaTitle iss.title then none
    else
      match lookupClaim claims iss.number with
      | some c =>
          if c.status = ClaimStatus.claimed then none
          else some ⟨iss, isDeprioritized claims thr iss.number⟩
      | none => some ⟨iss, isDeprioritized claims thr iss.number⟩)

/-- `available_issues.sort(key=lambda x: (x['deprioritized'], 0))`:
Python's `list.sort` is stable, and a stable sort on a boolean key is
exactly the order-preserving partition `false`-entries ++ `true`-entries. -/
def sortAvailable (l : List AvailItem) : List AvailItem :=
  l.filter (fun x => !x.deprioritized) ++ l.filter (fun x => x.deprioritized)

/-- The record `claim_issue` writes for the claimed issue: fresh lease
fields, failure bookkeeping carried over from any previous record of the
same issue (`claims.get(str(num), {}).get('failure_count', 0)` etc.). -/
def newClaimRec (now ttl : Int) (sessionId title : String)
    (prev : Option ClaimRec) : ClaimRec where
  sessionId := sessionId
  claimedAt := now
  expiresAt := some (now + ttl)
  title := title
  status := ClaimStatus.claimed
  failureCount := (prev.map (·.failureCount)).getD 0
  failedAt := Option.bind prev (·.failedAt)
  failureReasons := (prev.map (·.failureReasons)).getD []

/-- `IssueLockManager.claim_issue` (the read-modify-write step performed
under the exclusive file lock): cleanup stale claims, build and sort the
candidate list, claim its first element.  Returns the claimed issue
number (if any) together with the persisted store. -/
def claimIssue (now ttl : Int) (thr : Nat) (sessionId : String)
    (issues : List Issue) (store : Store) : Option Nat × Store :=
  let claims := cleanupStaleClaims now ttl store
  match sortAvailable (availableIssues claims thr issues) with
  | [] => (none, claims)
  | item :: _ =>
      let n := item.issue.number
      (some n,
       setClaim claims n
         (newClaimRec now ttl sessionId item.issue.title (lookupClaim claims n)))

/-- `IssueLockManager.release_issue`: no-op if the issue has no record or
the record is held by a different session; on `was_closed = true` delete
the record; otherwise keep it with status `'failed'`, a failure timestamp,
an incremented `failure_count` and an appended reason. -/
def releaseIssue (now : Int) (issueNum : Nat) (sessionId : String)
    (wasClosed : Bool) (store : Store) : Store :=
  match lookupClaim store issueNum with
  | none => store
  | some c =>
      if c.sessionId ≠ sessionId then store
      else if wasClosed then eraseClaim store issueNum
      else
        setClaim store issueNum
          { c with
            status := ClaimStatus.failed
            failedAt := some now
            failureCount := c.failureCount + 1
            failureReasons :=
              c.failureReasons ++
                ["Session " ++ sessionId ++ " did not close issue"] }

/-- `IssueLockManager.mark_failed`: same ownership check as release;
returns whether the record was updated. -/
def markFailed (now : Int) (issueNum : Nat) (sessionId reason : String)
    (store : Store) : Bool × Store :=
  match lookupClaim store issueNum with
  | none => (false, store)
  | some c =>
      if c.sessionId ≠ sessionId then (false, store)
      else
        (true,
         setClaim store issueNum
           { c with
             status := ClaimStatus.failed
             failedAt := some now
             failureCount := c.failureCount + 1
             failureReasons := c.failureReasons ++ [reason] })

end ClaimStore

namespace Health

open PyStr

/-- Python `round(x, 3)` (round-half-to-even), on exact rationals.  The
source computes the score in floating point; on the integer ratios the
code produces, the exact rational value is the intended semantics. -/
def roundHalfEven3 (q : ℚ) : ℚ :=
  let scaled := q * 1000
  let f : ℤ := ⌊scaled⌋
  let r : ℚ := scaled - f
  let n : ℤ :=
    if r < 1 / 2 then f
    else if 1 / 2 < r then f + 1
    else if f % 2 = 0 then f else f + 1
  (n : ℚ) / 1000

/-- `calculate_productivity_score`:
`(files_changed * 2 + issues_closed * 5) / max(tool_count, 1)`,
rounded to 3 decimals; 0.0 when `tool_count ≤ 0`. -/
def calculateProductivityScore (toolCount filesChanged issuesClosed : Nat) :
    ℚ :=
  if toolCount = 0 then 0
  else
    roundHalfEven3
      (((filesChanged * 2 + issuesClosed * 5 : Nat) : ℚ) /
        ((max toolCount 1 : Nat) : ℚ))

/-- The fields of the `health_status` dict that the orchestrator and the
contract consult.  `lowProductivityWarning` records whether the
T056 low-productivity warning was appended to `warnings`. -/
structure HealthResult where
  isHealthy : Bool
  toolCallsCount : Nat
  responseLength : Nat
  productivityScore : ℚ
  lowProductivityWarning : Bool
deriving DecidableEq, Repr

/-- `analyze_session_health` on the path the orchestrator exercises
(`tool_count` supplied by the SDK message loop, so the regex-based tool
counting fallback for `tool_count=None` is not reached).  Check 1
(empty/near-empty response) returns early; check 3 (zero tool calls) and
check 4 (short response with minimal tool use) clear `is_healthy`; the
T056 productivity check (`tool_count ≥ 30` and score `< 0.1`) only appends
a warning.  Checks 5-7 append further warnings without touching
`is_healthy` and are not modelled beyond that. -/
def analyzeSessionHealth (response : String) (toolCount : Nat)
    (filesChanged issuesClosed : Nat) : HealthResult :=
  let responseLength := response.data.length
  if stripLen response < 10 then
    { isHealthy := false
      toolCallsCount := toolCount
      responseLength := responseLength
      productivityScore := 0
      lowProductivityWarning := false }
  else
    let score := calculateProductivityScore toolCount filesChanged issuesClosed
    let lowProd := decide (30 ≤ toolCount) && decide (score < 1 / 10)
    let unhealthy := toolCount = 0 ∨ (responseLength < 200 ∧ toolCount < 2)
    { isHealthy := !decide unhealthy
      toolCallsCount := toolCount
      responseLength := responseLength
      productivityScore := score
      lowProductivityWarning := lowProd }

end Health

namespace ErrorHandler

/-- `APISource`. -/
inductive APISource where
  | claude
  | github
deriving DecidableEq, Repr

/-- `RecoveryAction`. -/
inductive RecoveryAction where
  | rotateToken
  | waitAndRetry
  | pullAndRetry
  | manualReview
  | abort
deriving DecidableEq, Repr

/-- `APIError` (the classified error record). -/
structure APIError where
  source : APISource
  code : Nat
  message : String
  recoverable : Bool
  suggestedAction : RecoveryAction
  retryAfterSeconds : Nat
  rawError : String
deriving DecidableEq, Repr

/-- The `ERROR_CLASSIFICATION` table:
`(source, code) ↦ (message, recoverable, action, retry_seconds)`. -/
def errorClassification (source : APISource) (code : Nat) :
    Option (String × Bool × RecoveryAction × Nat) :=
  match source, code with
  | .claude, 400 =>
      some ("Bad Request - content may have been filtered", false,
        .manualReview, 0)
  | .claude, 401 => some ("Authentication failed", true, .rotateToken, 0)
  | .claude, 403 =>
      some ("Forbidden - check API permissions", false, .abort, 0)
  | .claude, 429 => some ("Rate limited", true, .waitAndRetry, 60)
  | .claude, 500 => some ("Server error", true, .waitAndRetry, 30)
  | .claude, 529 => some ("Overloaded", true, .waitAndRetry, 120)
  | .github, 401 =>
      some ("Authentication failed - check gh auth status", true,
        .rotateToken, 0)
  | .github, 403 =>
      some ("Forbidden - may be rate limited or insufficient permissions",
        true, .waitAndRetry, 60)
  | .github, 404 =>
      some ("Not found - resource may have been deleted", false, .abort, 0)
  | .github, 409 =>
      some ("Conflict - may need to pull latest", true, .pullAndRetry, 5)
  | .github, 422 =>
      some ("Validation failed - check request format", false, .abort, 0)
  | .github, 429 => some ("Rate limited", true, .waitAndRetry, 60)
  | .github, 500 => some ("Server error", true, .waitAndRetry, 30)
  | .github, 502 => some ("Bad gateway", true, .waitAndRetry, 30)
  | .github, 503 => some ("Service unavailable", true, .waitAndRetry, 60)
  | _, _ => none

/-- `MAX_RETRY_DELAY_SECONDS`. -/
def MAX_RETRY_DELAY_SECONDS : Nat := 300

/-- `create_api_error` (= `classify_error`): table lookup with the
unknown-code default (`recoverable = code ≥ 500`, then
`WAIT_AND_RETRY`/30s or `ABORT`/0s). -/
def createApiError (source : APISource) (code : Nat) (rawError : String) :
    APIError :=
  match errorClassification source code with
  | some (message, recoverable, action, retryAfter) =>
      { source := source, code := code, message := message,
        recoverable := recoverable, suggestedAction := action,
        retryAfterSeconds := retryAfter, rawError := rawError }
  | none =>
      let recoverable := 500 ≤ code
      { source := source
        code := code
        message := "Unknown error (code " ++ toString code ++ ")"
        recoverable := recoverable
        suggestedAction :=
          if recoverable then RecoveryAction.waitAndRetry
          else RecoveryAction.abort
        retryAfterSeconds := if recoverable then 30 else 0
        rawError := rawError }

/-- `get_retry_delay`:
`min(max(error.retry_after_seconds, 5) * 2 ** attempt, 300)`.  The Python
function returns a float with an integral value; natural-number seconds. -/
def getRetryDelay (error : APIError) (attempt : Nat) : Nat :=
  min (max error.retryAfterSeconds 5 * 2 ^ attempt) MAX_RETRY_DELAY_SECONDS

end ErrorHandler

namespace Pool

/-- `HealthStatus` of a provider. -/
inductive HealthStatus where
  | unknown
  | healthy
  | degraded
  | unhealthy
deriving DecidableEq, Repr

/-- One configured provider, in pool priority order: the configuration
entry (`name`, `enabled`) fused with the runtime health of the
corresponding initialized provider.  Config entries whose provider type is
unknown (never initialized, hence skipped by every selection loop exactly
like disabled entries) are modelled as `enabled = false`. -/
structure ProviderEntry where
  name : String
  enabled : Bool
  health : HealthStatus
deriving DecidableEq, Repr

/-- The pool's selection-relevant state: the priority-ordered provider
list, the set of names currently in cooldown (`_cooldown_until`, abstracted
to membership since only `_is_in_cooldown` is consulted), and the failover
flag. -/
structure ProviderPool where
  providers : List ProviderEntry
  cooldown : List String
  failoverEnabled : Bool
deriving DecidableEq, Repr

/-- `_is_in_cooldown`. -/
def inCooldown (p : ProviderPool) (name : String) : Bool :=
  p.cooldown.contains name

/-- The health test of the selection loops: accept `UNKNOWN`, `HEALTHY`
or `DEGRADED`. -/
def acceptableHealth (h : HealthStatus) : Bool :=
  h = HealthStatus.unknown || h = HealthStatus.healthy ||
    h = HealthStatus.degraded

/-- `ProviderPool.get_provider` without an explicit name: first enabled
provider with acceptable health (cooldown is NOT consulted), else any
enabled provider as last resort, else `none`
(= raise `NoProvidersAvailableError`). -/
def getProvider (p : ProviderPool) : Option ProviderEntry :=
  match p.providers.find? (fun e => e.enabled && acceptableHealth e.health) with
  | some e => some e
  | none => p.providers.find? (fun e => e.enabled)

/-- `ProviderPool.get_next_provider`: `none` when failover is disabled;
otherwise the first enabled non-excluded provider that is not in cooldown
and has acceptable health; as a last resort the first enabled non-excluded
provider whose health is exactly `HEALTHY`, cooldown notwithstanding. -/
def getNextProvider (p : ProviderPool) (exclude : String) :
    Option ProviderEntry :=
  if !p.failoverEnabled then none
  else
    match
      p.providers.find? (fun e =>
        e.enabled && e.name ≠ exclude && !inCooldown p e.name &&
          acceptableHealth e.health)
    with
    | some e => some e
    | none =>
        p.providers.find? (fun e =>
          e.enabled && e.name ≠ exclude && e.health = HealthStatus.healthy)

end Pool

namespace Orchestrator

open PyStr

/-- `BacklogState` (the `last_check` timestamp field is bookkeeping only
and is not modelled). -/
structure BacklogState where
  consecutiveNoIssues : Nat
  threshold : Nat
deriving DecidableEq, Repr

/-- The per-result test of `record_round`:
`"No unclaimed issues" in result or "NO_ISSUES" in result`. -/
def isNoIssuesResult (r : String) : Bool :=
  strContains r "No unclaimed issues" || strContains r "NO_ISSUES"

/-- `BacklogState.record_round`: if every session result of the round is
a no-work result, increment the counter and report whether it reached the
threshold; otherwise reset the counter and report `false`. -/
def recordRound (st : BacklogState) (results : List String) :
    Bool × BacklogState :=
  if results.all isNoIssuesResult then
    let st' : BacklogState :=
      { st with consecutiveNoIssues := st.consecutiveNoIssues + 1 }
    (decide (st.threshold ≤ st'.consecutiveNoIssues), st')
  else
    (false, { st with consecutiveNoIssues := 0 })

/-- The round loop of `run_parallel`: each list element is the result
strings of one planned round (`num_iterations` = length of the plan);
after each issued round `record_round` runs and a `true` verdict breaks
the loop.  Returns the number of rounds actually issued. -/
def roundsIssued (st : BacklogState) : List (List String) → Nat
  | [] => 0
  | r :: rest =>
      let (stop, st') := recordRound st r
      if stop then 1 else 1 + roundsIssued st' rest

end Orchestrator

/-! ## Helper lemmas about the claim store -/

namespace ClaimStore

set_option maxRecDepth 10000

theorem lookup_setClaim_self (s : Store) (n : Nat) (c : ClaimRec) :
    lookupClaim (setClaim s n c) n = some c := by
  induction s with
  | nil => simp [setClaim, lookupClaim]
  | cons kc rest ih =>
      obtain ⟨k, c0⟩ := kc
      by_cases hk : k = n
      · simp [setClaim, lookupClaim, hk]
      · simp [setClaim, lookupClaim, hk, ih]

theorem lookup_eraseClaim_self (s : Store) (n : Nat) :
    lookupClaim (eraseClaim s n) n = none := by
  induction s with
  | nil => rfl
  | cons kc rest ih =>
      obtain ⟨k, c0⟩ := kc
      by_cases hk : k = n
      · simpa [eraseClaim, hk] using ih
      · simpa [eraseClaim, lookupClaim, hk] using ih

theorem mem_of_mem_sortAvailable {l : List AvailItem} {x : AvailItem}
    (hx : x ∈ sortAvailable l) : x ∈ l := by
  rcases List.mem_append.1 hx with h | h
  · exact (List.mem_filter.1 h).1
  · exact (List.mem_filter.1 h).1

theorem mem_availableIssues_spec {claims : Store} {thr : Nat}
    {issues : List Issue} {x : AvailItem}
    (hx : x ∈ availableIssues claims thr issues) :
    x.issue ∈ issues ∧ isMetaTitle x.issue.title = false ∧
      x.deprioritized = isDeprioritized claims thr x.issue.number ∧
      ∀ c, lookupClaim claims x.issue.number = some c →
        c.status ≠ ClaimStatus.claimed := by
  obtain ⟨iss, hiss, hf⟩ := List.mem_filterMap.1 hx
  split at hf
  · simp at hf
  · rename_i hmeta
    split at hf
    · rename_i c hlook
      split at hf
      · simp at hf
      · rename_i hst
        cases hf
        refine ⟨hiss, by simpa using hmeta, rfl, fun c' hc' => ?_⟩
        rw [hlook] at hc'
        cases hc'
        exact hst
    · rename_i hlook
      cases hf
      exact ⟨hiss, by simpa using hmeta, rfl, fun c hc => by simp [hlook] at hc⟩

theorem claimIssue_fst_cases (now ttl : Int) (thr : Nat) (sid : String)
    (issues : List Issue) (store : Store) {n : Nat}
    (h : (claimIssue now ttl thr sid issues store).1 = some n) :
    ∃ item rest,
      sortAvailable
          (availableIssues (cleanupStaleClaims now ttl store) thr issues) =
        item :: rest ∧ item.issue.number = n := by
  rcases hs : sortAvailable
      (availableIssues (cleanupStaleClaims now ttl store) thr issues) with
    _ | ⟨item, rest⟩
  · simp only [claimIssue, hs] at h
    exact absurd h (by simp)
  · simp only [claimIssue, hs] at h
    exact ⟨item, rest, rfl, Option.some.inj h⟩

end ClaimStore

/-! ## C1 -/

open ClaimStore in
/-- C1: claim acquisition is a serialized read-modify-write under the
exclusive lock, and `claim_issue` never claims an issue whose (post
cleanup) record still has status `'claimed'`; since the store binds at
most one record per issue id, at most one claim with status `'claimed'`
exists per work-item id at any instant.  In particular, starting from an
empty store with the single open item #7, of two serialized claim
attempts the first returns 7 and the second returns none. -/
theorem claim_issue_mutual_exclusion :
    (∀ (now ttl : Int) (thr : Nat) (sid : String) (issues : List Issue)
        (store : Store) (n : Nat) (c : ClaimRec),
        lookupClaim (cleanupStaleClaims now ttl store) n = some c →
        c.status = ClaimStatus.claimed →
        (claimIssue now ttl thr sid issues store).1 ≠ some n) ∧
    ∀ s1 s2 : String,
      (claimIssue 0 30 3 s1 [⟨7, "Fix login bug"⟩] []).1 = some 7 ∧
      (claimIssue 0 30 3 s2 [⟨7, "Fix login bug"⟩]
          (claimIssue 0 30 3 s1 [⟨7, "Fix login bug"⟩] []).2).1 = none := by
  constructor
  · intro now ttl thr sid issues store n c hlook hst habs
    obtain ⟨item, rest, hs, hn⟩ :=
      claimIssue_fst_cases now ttl thr sid issues store habs
    have hmem : item ∈
        availableIssues (cleanupStaleClaims now ttl store) thr issues :=
      mem_of_mem_sortAvailable (hs ▸ List.mem_cons_self item rest)
    have hspec := mem_availableIssues_spec hmem
    exact hspec.2.2.2 c (hn ▸ hlook) hst
  · intro s1 s2
    exact ⟨rfl, rfl⟩

open ClaimStore in
/-- Witness for `claim_issue_mutual_exclusion` at concrete inputs:
a store holding an active claim on #7 blocks a second claim of #7, and
on the empty store the first claim of #7 succeeds. -/
theorem claim_issue_mutual_exclusion_witness :
    (claimIssue 0 30 3 "sessB" [⟨7, "Fix login bug"⟩]
        [(7, ⟨"sessA", 0, some 30, "Fix login bug", ClaimStatus.claimed, 0,
          none, []⟩)]).1 ≠ some 7 ∧
    (claimIssue 0 30 3 "sessA" [⟨7, "Fix login bug"⟩] []).1 = some 7 :=
  ⟨claim_issue_mutual_exclusion.1 0 30 3 "sessB" [⟨7, "Fix login bug"⟩]
      [(7, ⟨"sessA", 0, some 30, "Fix login bug", ClaimStatus.claimed, 0,
        none, []⟩)]
      7 ⟨"sessA", 0, some 30, "Fix login bug", ClaimStatus.claimed, 0,
        none, []⟩ (by decide) rfl,
   (claim_issue_mutual_exclusion.2 "sessA" "sessB").1⟩

/-! ## C3 -/

open ClaimStore in
/-- C3 counterexample: `mark_failed` by the holding session on a record
whose status is `'claimed'` DOES alter the claim status — the persisted
record afterwards has status `'failed'`, refuting the claim that the
status field is left unchanged. -/
theorem mark_failed_alters_status_counterexample :
    (⟨"sessA", 0, some 30, "Add tests", ClaimStatus.claimed, 0, none,
        ([] : List String)⟩ : ClaimRec).status = ClaimStatus.claimed ∧
    (lookupClaim
        (markFailed 5 7 "sessA" "timeout"
          [(7, ⟨"sessA", 0, some 30, "Add tests", ClaimStatus.claimed, 0,
            none, []⟩)]).2 7).map (·.status) =
      some ClaimStatus.failed := by
  decide

open ClaimStore in
/-- C3 (amended): for a record held by the calling session, `mark_failed`
increments `failure_count` by one, appends the reason, timestamps the
failure AND sets the record's status to `'failed'` (it does not leave the
status field unchanged); it reports `true`. -/
theorem mark_failed_semantics :
    ∀ (now : Int) (n : Nat) (sid reason : String) (store : Store)
      (c : ClaimRec),
      lookupClaim store n = some c → c.sessionId = sid →
      (markFailed now n sid reason store).1 = true ∧
      lookupClaim (markFailed now n sid reason store).2 n =
        some
          { c with
            status := ClaimStatus.failed
            failedAt := some now
            failureCount := c.failureCount + 1
            failureReasons := c.failureReasons ++ [reason] } := by
  intro now n sid reason store c hlook hown
  simp only [markFailed, hlook, hown]
  simp [lookup_setClaim_self]

open ClaimStore in
/-- Witness for `mark_failed_semantics` at a concrete store. -/
theorem mark_failed_semantics_witness :
    (markFailed 5 7 "sessA" "timeout"
        [(7, ⟨"sessA", 0, some 30, "Add tests", ClaimStatus.claimed, 2,
          none, ["timeout"]⟩)]).1 = true ∧
    lookupClaim
        (markFailed 5 7 "sessA" "timeout"
          [(7, ⟨"sessA", 0, some 30, "Add tests", ClaimStatus.claimed, 2,
            none, ["timeout"]⟩)]).2 7 =
      some ⟨"sessA", 0, some 30, "Add tests", ClaimStatus.failed, 3,
        some 5, ["timeout", "timeout"]⟩ :=
  mark_failed_semantics 5 7 "sessA" "timeout"
    [(7, ⟨"sessA", 0, some 30, "Add tests", ClaimStatus.claimed, 2, none,
      ["timeout"]⟩)]
    ⟨"sessA", 0, some 30, "Add tests", ClaimStatus.claimed, 2, none,
      ["timeout"]⟩ rfl rfl

/-! ## C4 -/

open ClaimStore in
/-- C4 counterexample: `release(id, session, true)` does NOT always
result in no persisted record — when the record is held by a different
session, the release is a no-op and the record persists; likewise
`release(id, session, false)` on a store without a record for the id
leaves no Failed record.  This refutes the claim's universal
quantification over every store state. -/
theorem release_issue_universal_counterexample :
    lookupClaim
        (releaseIssue 9 5 "sessB" true
          [(5, ⟨"sessA", 0, some 30, "Fix CI", ClaimStatus.claimed, 0, none,
            []⟩)]) 5 =
      some ⟨"sessA", 0, some 30, "Fix CI", ClaimStatus.claimed, 0, none,
        []⟩ ∧
    lookupClaim (releaseIssue 9 5 "sessB" false []) 5 = none := by
  decide

open ClaimStore in
/-- C4 (amended): when a record for the work item exists and is held by
the calling session, `release(id, session, true)` deletes it (no record
persists) and `release(id, session, false)` keeps it with status
`'failed'`, a failure timestamp, `failure_count` incremented by exactly
one and an appended reason; when the holder differs or no record exists,
release is a no-op. -/
theorem release_issue_semantics :
    ∀ (now : Int) (n : Nat) (sid : String) (store : Store),
      (∀ c, lookupClaim store n = some c →
        (c.sessionId = sid →
          lookupClaim (releaseIssue now n sid true store) n = none ∧
          lookupClaim (releaseIssue now n sid false store) n =
            some
              { c with
                status := ClaimStatus.failed
                failedAt := some now
                failureCount := c.failureCount + 1
                failureReasons :=
                  c.failureReasons ++
                    ["Session " ++ sid ++ " did not close issue"] }) ∧
        (c.sessionId ≠ sid →
          releaseIssue now n sid true store = store ∧
          releaseIssue now n sid false store = store)) ∧
      (lookupClaim store n = none →
        ∀ b, releaseIssue now n sid b store = store) := by
  intro now n sid store
  constructor
  · intro c hlook
    constructor
    · intro hown
      simp only [releaseIssue, hlook, hown]
      simp [lookup_eraseClaim_self, lookup_setClaim_self]
    · intro hother
      simp [releaseIssue, hlook, hother]
  · intro hnone b
    simp [releaseIssue, hnone]

open ClaimStore in
/-- Witness for `release_issue_semantics` at a concrete store: an owned
release with `was_closed = true` removes the record, with
`was_closed = false` it keeps a Failed record with the count bumped by
one. -/
theorem release_issue_semantics_witness :
    lookupClaim
        (releaseIssue 9 5 "sessA" true
          [(5, ⟨"sessA", 0, some 30, "Fix CI", ClaimStatus.claimed, 1, none,
            ["Session sessZ did not close issue"]⟩)]) 5 = none ∧
    lookupClaim
        (releaseIssue 9 5 "sessA" false
          [(5, ⟨"sessA", 0, some 30, "Fix CI", ClaimStatus.claimed, 1, none,
            ["Session sessZ did not close issue"]⟩)]) 5 =
      some ⟨"sessA", 0, some 30, "Fix CI", ClaimStatus.failed, 2, some 9,
        ["Session sessZ did not close issue",
          "Session sessA did not close issue"]⟩ :=
  ((release_issue_semantics 9 5 "sessA"
        [(5, ⟨"sessA", 0, some 30, "Fix CI", ClaimStatus.claimed, 1, none,
          ["Session sessZ did not close issue"]⟩)]).1
      ⟨"sessA", 0, some 30, "Fix CI", ClaimStatus.claimed, 1, none,
        ["Session sessZ did not close issue"]⟩ rfl).1 rfl

/-! ## Further claim-store lemmas (shared) -/

namespace ClaimStore

theorem mem_of_lookup_eq_some :
    ∀ {s : Store} {n : Nat} {c : ClaimRec},
      lookupClaim s n = some c → (n, c) ∈ s := by
  intro s
  induction s with
  | nil => intro n c h; cases h
  | cons kc rest ih =>
      intro n c h
      obtain ⟨k, c0⟩ := kc
      by_cases hk : k = n
      · subst hk
        simp only [lookupClaim, if_pos rfl] at h
        cases h
        exact List.mem_cons_self _ _
      · simp only [lookupClaim, if_neg hk] at h
        exact List.mem_cons_of_mem _ (ih h)

theorem not_stale_of_lookup_cleanup {now ttl : Int} {s : Store} {n : Nat}
    {c : ClaimRec}
    (h : lookupClaim (cleanupStaleClaims now ttl s) n = some c) :
    isStale now ttl c = false := by
  have hmem := mem_of_lookup_eq_some h
  have := (List.mem_filter.1 hmem).2
  simpa using this

theorem claimIssue_eq_of_sort {now ttl : Int} {thr : Nat} {sid : String}
    {issues : List Issue} {store : Store} {item : AvailItem}
    {rest : List AvailItem}
    (hs : sortAvailable
        (availableIssues (cleanupStaleClaims now ttl store) thr issues) =
      item :: rest) :
    claimIssue now ttl thr sid issues store =
      (some item.issue.number,
       setClaim (cleanupStaleClaims now ttl store) item.issue.number
         (newClaimRec now ttl sid item.issue.title
           (lookupClaim (cleanupStaleClaims now ttl store)
             item.issue.number))) := by
  simp only [claimIssue, hs]

end ClaimStore

/-! ## C2 -/

open ClaimStore in
/-- C2 counterexample: a record released as a failure (status `'failed'`,
`expires_at` = 20, current time 0, hence not expired) does NOT exclude
the item from claiming — `claim_issue` immediately creates a new claim
for #7, refuting "claim_issue never creates a new claim for that item
[before TTL expiry]". -/
theorem failed_claim_not_excluded_counterexample :
    isStale 0 30 ⟨"sessA", -10, some 20, "Fix crash", ClaimStatus.failed, 1,
        some (-1), ["Session sessA did not close issue"]⟩ = false ∧
    (claimIssue 0 30 3 "sessB" [⟨7, "Fix crash"⟩]
        [(7, ⟨"sessA", -10, some 20, "Fix crash", ClaimStatus.failed, 1,
          some (-1), ["Session sessA did not close issue"]⟩)]).1 =
      some 7 ∧
    (lookupClaim
        (claimIssue 0 30 3 "sessB" [⟨7, "Fix crash"⟩]
          [(7, ⟨"sessA", -10, some 20, "Fix crash", ClaimStatus.failed, 1,
            some (-1), ["Session sessA did not close issue"]⟩)]).2
        7).map (·.status) = some ClaimStatus.claimed := by
  decide

open ClaimStore in
/-- C2 (amended): a claim record kept with status `'Failed'` does not
exclude its work item from claiming before TTL expiry — only records with
status `'claimed'` are skipped.  An unexpired Failed record leaves the
item an available candidate (deprioritized once its failure count reaches
the threshold), so `claim_issue` may immediately re-claim it. -/
theorem failed_claim_remains_candidate :
    ∀ (now ttl : Int) (thr : Nat) (store : Store) (issues : List Issue)
      (iss : Issue) (c : ClaimRec),
      iss ∈ issues → isMetaTitle iss.title = false →
      lookupClaim (cleanupStaleClaims now ttl store) iss.number = some c →
      c.status = ClaimStatus.failed →
      (⟨iss,
          isDeprioritized (cleanupStaleClaims now ttl store) thr
            iss.number⟩ : AvailItem) ∈
        availableIssues (cleanupStaleClaims now ttl store) thr issues := by
  intro now ttl thr store issues iss c hiss hmeta hlook hst
  refine List.mem_filterMap.2 ⟨iss, hiss, ?_⟩
  rw [if_neg (by simp [hmeta]), hlook]
  simp [hst]

open ClaimStore in
/-- Witness for `failed_claim_remains_candidate`: the item with the
unexpired Failed record is among the available candidates. -/
theorem failed_claim_remains_candidate_witness :
    (⟨⟨7, "Fix crash"⟩,
        isDeprioritized
          (cleanupStaleClaims 0 30
            [(7, ⟨"sessA", -10, some 20, "Fix crash", ClaimStatus.failed, 1,
              some (-1), []⟩)]) 3 7⟩ : AvailItem) ∈
      availableIssues
        (cleanupStaleClaims 0 30
          [(7, ⟨"sessA", -10, some 20, "Fix crash", ClaimStatus.failed, 1,
            some (-1), []⟩)]) 3 [⟨7, "Fix crash"⟩] :=
  failed_claim_remains_candidate 0 30 3
    [(7, ⟨"sessA", -10, some 20, "Fix crash", ClaimStatus.failed, 1,
      some (-1), []⟩)]
    [⟨7, "Fix crash"⟩] ⟨7, "Fix crash"⟩
    ⟨"sessA", -10, some 20, "Fix crash", ClaimStatus.failed, 1, some (-1),
      []⟩
    (List.mem_singleton.2 rfl) (by decide) (by decide) rfl

/-! ## C10 -/

open ClaimStore in
/-- C10: when `claim_issue` claims item `n`, the new record carries over
`failure_count`, `failed_at` and `failure_reasons` from the record for
`n` that survived stale-claim cleanup (absent record ⇒ zeroed history),
and every record surviving cleanup is non-stale — so failure history
survives re-claiming and only stale-claim deletion resets it. -/
theorem claim_issue_carries_failure_history :
    (∀ (now ttl : Int) (thr : Nat) (sid : String) (issues : List Issue)
        (store : Store) (n : Nat),
        (claimIssue now ttl thr sid issues store).1 = some n →
        ∃ c',
          lookupClaim (claimIssue now ttl thr sid issues store).2 n =
            some c' ∧
          c'.status = ClaimStatus.claimed ∧
          c'.failureCount =
            ((lookupClaim (cleanupStaleClaims now ttl store) n).map
              (·.failureCount)).getD 0 ∧
          c'.failedAt =
            Option.bind (lookupClaim (cleanupStaleClaims now ttl store) n)
              (·.failedAt) ∧
          c'.failureReasons =
            ((lookupClaim (cleanupStaleClaims now ttl store) n).map
              (·.failureReasons)).getD []) ∧
    ∀ (now ttl : Int) (store : Store) (n : Nat) (c : ClaimRec),
      lookupClaim (cleanupStaleClaims now ttl store) n = some c →
      isStale now ttl c = false := by
  constructor
  · intro now ttl thr sid issues store n h
    obtain ⟨item, rest, hs, hn⟩ :=
      claimIssue_fst_cases now ttl thr sid issues store h
    subst hn
    rw [claimIssue_eq_of_sort hs]
    exact ⟨_, lookup_setClaim_self _ _ _, rfl, rfl, rfl, rfl⟩
  · intro now ttl store n c hlook
    exact not_stale_of_lookup_cleanup hlook

open ClaimStore in
/-- Witness for `claim_issue_carries_failure_history`: re-claiming #7
over its Failed record keeps `failure_count = 2`, and the surviving
record is non-stale. -/
theorem claim_issue_carries_failure_history_witness :
    (∃ c',
      lookupClaim
          (claimIssue 0 30 3 "sessB" [⟨7, "Fix crash"⟩]
            [(7, ⟨"sessA", -10, some 20, "Fix crash", ClaimStatus.failed, 2,
              some (-1), ["r1", "r2"]⟩)]).2 7 = some c' ∧
      c'.status = ClaimStatus.claimed ∧
      c'.failureCount =
        ((lookupClaim
            (cleanupStaleClaims 0 30
              [(7, ⟨"sessA", -10, some 20, "Fix crash", ClaimStatus.failed,
                2, some (-1), ["r1", "r2"]⟩)]) 7).map
          (·.failureCount)).getD 0 ∧
      c'.failedAt =
        Option.bind
          (lookupClaim
            (cleanupStaleClaims 0 30
              [(7, ⟨"sessA", -10, some 20, "Fix crash", ClaimStatus.failed,
                2, some (-1), ["r1", "r2"]⟩)]) 7) (·.failedAt) ∧
      c'.failureReasons =
        ((lookupClaim
            (cleanupStaleClaims 0 30
              [(7, ⟨"sessA", -10, some 20, "Fix crash", ClaimStatus.failed,
                2, some (-1), ["r1", "r2"]⟩)]) 7).map
          (·.failureReasons)).getD []) ∧
    isStale 0 30 ⟨"sessA", -10, some 20, "Fix crash", ClaimStatus.failed, 2,
        some (-1), ["r1", "r2"]⟩ = false :=
  ⟨claim_issue_carries_failure_history.1 0 30 3 "sessB" [⟨7, "Fix crash"⟩]
      [(7, ⟨"sessA", -10, some 20, "Fix crash", ClaimStatus.failed, 2,
        some (-1), ["r1", "r2"]⟩)] 7 (by decide),
   claim_issue_carries_failure_history.2 0 30
      [(7, ⟨"sessA", -10, some 20, "Fix crash", ClaimStatus.failed, 2,
        some (-1), ["r1", "r2"]⟩)] 7
      ⟨"sessA", -10, some 20, "Fix crash", ClaimStatus.failed, 2, some (-1),
        ["r1", "r2"]⟩ (by decide)⟩

/-! ## C5 -/

open ClaimStore in
/-- C5: `claim_issue` never selects a deprioritized item
(`failure_count ≥ threshold`) ahead of any available item below the
threshold — if the selected item is deprioritized, every available
candidate was; and the stable boolean-key sort preserves the external
priority order within both the normal and the deprioritized partition
(each partition of the sorted list is the corresponding in-order filter of
the candidate list, and the sort is a permutation). -/
theorem deprioritized_never_preferred :
    (∀ (now ttl : Int) (thr : Nat) (sid : String) (issues : List Issue)
        (store : Store) (n : Nat),
        (claimIssue now ttl thr sid issues store).1 = some n →
        isDeprioritized (cleanupStaleClaims now ttl store) thr n = true →
        ∀ item ∈
          availableIssues (cleanupStaleClaims now ttl store) thr issues,
          item.deprioritized = true) ∧
    ∀ l : List AvailItem,
      (sortAvailable l).filter (fun x => !x.deprioritized) =
          l.filter (fun x => !x.deprioritized) ∧
      (sortAvailable l).filter (fun x => x.deprioritized) =
          l.filter (fun x => x.deprioritized) ∧
      List.Perm (sortAvailable l) l := by
  constructor
  · intro now ttl thr sid issues store n hclaim hdep item hitem
    obtain ⟨hd, rest, hs, hn⟩ :=
      claimIssue_fst_cases now ttl thr sid issues store hclaim
    have hhdmem :
        hd ∈ availableIssues (cleanupStaleClaims now ttl store) thr issues :=
      mem_of_mem_sortAvailable (hs ▸ List.mem_cons_self hd rest)
    have hhdflag := (mem_availableIssues_spec hhdmem).2.2.1
    have hhddep : hd.deprioritized = true := by rw [hhdflag, hn]; exact hdep
    -- the head of the sorted list is deprioritized, so the normal
    -- partition is empty and every candidate is deprioritized
    rcases hA : List.filter (fun x => !x.deprioritized)
        (availableIssues (cleanupStaleClaims now ttl store) thr issues) with
      _ | ⟨a, tla⟩
    · have := List.filter_eq_nil_iff.1 hA item hitem
      simpa using this
    · exfalso
      have hsort : sortAvailable
          (availableIssues (cleanupStaleClaims now ttl store) thr issues) =
          a :: (tla ++ List.filter (fun x => x.deprioritized)
            (availableIssues (cleanupStaleClaims now ttl store) thr
              issues)) := by
        rw [sortAvailable, hA]
        simp
      rw [hs] at hsort
      injection hsort with h1 h2
      have hamem : a ∈ List.filter (fun x => !x.deprioritized)
          (availableIssues (cleanupStaleClaims now ttl store) thr issues) :=
        by rw [hA]; exact List.mem_cons_self a tla
      have ha : (!a.deprioritized) = true := (List.mem_filter.1 hamem).2
      rw [← h1, hhddep] at ha
      simp at ha
  · intro l
    refine ⟨?_, ?_, ?_⟩
    · rw [sortAvailable, List.filter_append, List.filter_filter,
        List.filter_filter]
      have h1 : List.filter (fun x => !x.deprioritized && !x.deprioritized)
          l = List.filter (fun x => !x.deprioritized) l := by
        congr 1
        funext x
        exact Bool.and_self _
      have h2 : List.filter (fun x => !x.deprioritized && x.deprioritized)
          l = [] :=
        List.filter_eq_nil_iff.2 (fun x _ => by cases x.deprioritized <;> simp)
      rw [h1, h2, List.append_nil]
    · rw [sortAvailable, List.filter_append, List.filter_filter,
        List.filter_filter]
      have h1 : List.filter (fun x => x.deprioritized && !x.deprioritized)
          l = [] :=
        List.filter_eq_nil_iff.2 (fun x _ => by cases x.deprioritized <;> simp)
      have h2 : List.filter (fun x => x.deprioritized && x.deprioritized)
          l = List.filter (fun x => x.deprioritized) l := by
        congr 1
        funext x
        exact Bool.and_self _
      rw [h1, h2, List.nil_append]
    · rw [sortAvailable]
      have h := List.filter_append_perm (fun x => !x.deprioritized) l
      simpa only [Bool.not_not] using h

open ClaimStore in
/-- Witness for `deprioritized_never_preferred`: claiming over a store
whose only candidate has 3 recorded failures selects a deprioritized
item, and then every candidate is deprioritized; the partition equations
at a concrete two-element candidate list. -/
theorem deprioritized_never_preferred_witness :
    (∀ item ∈
        availableIssues
          (cleanupStaleClaims 0 30
            [(7, ⟨"sessA", -10, some 20, "Fix crash", ClaimStatus.failed, 3,
              some (-1), []⟩)]) 3 [⟨7, "Fix crash"⟩],
        item.deprioritized = true) ∧
    (sortAvailable [⟨⟨1, "a"⟩, true⟩, ⟨⟨2, "b"⟩, false⟩]).filter
          (fun x => !x.deprioritized) =
        [(⟨⟨1, "a"⟩, true⟩ : AvailItem), ⟨⟨2, "b"⟩, false⟩].filter
          (fun x => !x.deprioritized) ∧
      (sortAvailable [⟨⟨1, "a"⟩, true⟩, ⟨⟨2, "b"⟩, false⟩]).filter
          (fun x => x.deprioritized) =
        [(⟨⟨1, "a"⟩, true⟩ : AvailItem), ⟨⟨2, "b"⟩, false⟩].filter
          (fun x => x.deprioritized) ∧
      List.Perm (sortAvailable [⟨⟨1, "a"⟩, true⟩, ⟨⟨2, "b"⟩, false⟩])
        [⟨⟨1, "a"⟩, true⟩, ⟨⟨2, "b"⟩, false⟩] :=
  ⟨deprioritized_never_preferred.1 0 30 3 "sessB" [⟨7, "Fix crash"⟩]
      [(7, ⟨"sessA", -10, some 20, "Fix crash", ClaimStatus.failed, 3,
        some (-1), []⟩)] 7 (by decide) (by decide),
   deprioritized_never_preferred.2 [⟨⟨1, "a"⟩, true⟩, ⟨⟨2, "b"⟩, false⟩]⟩

set_option maxRecDepth 10000

/-! ## C6 -/

open Health in
/-- C6 counterexample: a 200-character response with 30 tool calls and no
files changed or issues closed has `tool_count ≥ 30` and productivity
score `< 0.1` — the claimed fourth unhealthy trigger — yet
`analyze_session_health` reports the session healthy: the T056
productivity check only appends a warning and never clears `is_healthy`. -/
theorem productivity_not_flagged_unhealthy_counterexample :
    (analyzeSessionHealth (String.mk (List.replicate 200 'a')) 30 0 0).isHealthy
        = true ∧
    30 ≤ (analyzeSessionHealth (String.mk (List.replicate 200 'a')) 30 0
        0).toolCallsCount ∧
    (analyzeSessionHealth (String.mk (List.replicate 200 'a')) 30 0
        0).productivityScore < 1 / 10 ∧
    (analyzeSessionHealth (String.mk (List.replicate 200 'a')) 30 0
        0).lowProductivityWarning = true := by
  have h : ¬ (PyStr.stripLen (String.mk (List.replicate 200 'a')) < 10) := by
    decide
  refine ⟨by decide, by decide, ?_, ?_⟩
  · simp only [analyzeSessionHealth, if_neg h]
    norm_num [calculateProductivityScore, roundHalfEven3]
  · simp only [analyzeSessionHealth, if_neg h]
    norm_num [calculateProductivityScore, roundHalfEven3]

open Health in
/-- C6 (amended): the health check computes the productivity score as
`round((files_changed*2 + issues_closed*5) / max(tool_count, 1), 3)` and
flags the session unhealthy exactly when the stripped response is shorter
than 10 characters, no tool invocation occurred, or the response is under
200 characters with fewer than 2 tool calls; the `tool_count ≥ 30` with
`score < 0.1` condition appends a low-productivity warning but does not
flag the session unhealthy. -/
theorem session_health_characterization :
    ∀ (response : String) (toolCount filesChanged issuesClosed : Nat),
      ((analyzeSessionHealth response toolCount filesChanged
          issuesClosed).isHealthy = false ↔
        (PyStr.stripLen response < 10 ∨ toolCount = 0 ∨
          (response.data.length < 200 ∧ toolCount < 2))) ∧
      (10 ≤ PyStr.stripLen response →
        (analyzeSessionHealth response toolCount filesChanged
            issuesClosed).productivityScore =
          calculateProductivityScore toolCount filesChanged issuesClosed ∧
        ((analyzeSessionHealth response toolCount filesChanged
            issuesClosed).lowProductivityWarning = true ↔
          (30 ≤ toolCount ∧
            calculateProductivityScore toolCount filesChanged issuesClosed <
              1 / 10))) ∧
      (1 ≤ toolCount →
        calculateProductivityScore toolCount filesChanged issuesClosed =
          roundHalfEven3
            (((filesChanged * 2 + issuesClosed * 5 : Nat) : ℚ) /
              (toolCount : ℚ))) := by
  intro response toolCount filesChanged issuesClosed
  have hscore : 1 ≤ toolCount →
      calculateProductivityScore toolCount filesChanged issuesClosed =
        roundHalfEven3
          (((filesChanged * 2 + issuesClosed * 5 : Nat) : ℚ) /
            (toolCount : ℚ)) := by
    intro h1
    have hne : toolCount ≠ 0 := by omega
    simp only [calculateProductivityScore, if_neg hne]
    congr 2
    norm_cast
    omega
  by_cases h : PyStr.stripLen response < 10
  · refine ⟨?_, fun h10 => absurd h (by omega), hscore⟩
    simp [analyzeSessionHealth, h]
  · refine ⟨?_, fun _ => ?_, hscore⟩
    · simp only [analyzeSessionHealth, if_neg h]
      simp [h]
      tauto
    · simp only [analyzeSessionHealth, if_neg h]
      simp

open Health in
/-- Witness for `session_health_characterization` at a long healthy
response with 30 tool calls. -/
theorem session_health_characterization_witness :
    (analyzeSessionHealth "Completed issue #7 and pushed the fix." 30 0
        0).productivityScore = calculateProductivityScore 30 0 0 ∧
    ((analyzeSessionHealth "Completed issue #7 and pushed the fix." 30 0
        0).lowProductivityWarning = true ↔
      (30 ≤ 30 ∧ calculateProductivityScore 30 0 0 < 1 / 10)) :=
  ((session_health_characterization
      "Completed issue #7 and pushed the fix." 30 0 0).2.1 (by decide))

/-! ## C7 -/

open ErrorHandler in
/-- C7: `retry_delay(error, attempt)` equals
`max(error.base_retry_after, 5) * 2^attempt` capped at 300 seconds, is
non-decreasing in the attempt and never exceeds 300; the GitHub 409
classification has base delay 5, giving 10 seconds at attempt 1. -/
theorem retry_delay_monotone_capped :
    ∀ (e : APIError) (a b : Nat), a ≤ b →
      getRetryDelay e a =
          min (max e.retryAfterSeconds 5 * 2 ^ a) 300 ∧
      getRetryDelay e a ≤ getRetryDelay e b ∧
      getRetryDelay e a ≤ 300 ∧
      getRetryDelay (createApiError APISource.github 409 "") 1 = 10 := by
  intro e a b hab
  refine ⟨rfl, ?_, Nat.min_le_right _ _, by decide⟩
  exact min_le_min
    (Nat.mul_le_mul_left _ (Nat.pow_le_pow_right (by norm_num) hab)) le_rfl

open ErrorHandler in
/-- Witness for `retry_delay_monotone_capped` at the Claude 429
classification, attempts 0 ≤ 3. -/
theorem retry_delay_monotone_capped_witness :
    getRetryDelay (createApiError APISource.claude 429 "") 0 =
        min (max (createApiError APISource.claude 429
          "").retryAfterSeconds 5 * 2 ^ 0) 300 ∧
    getRetryDelay (createApiError APISource.claude 429 "") 0 ≤
        getRetryDelay (createApiError APISource.claude 429 "") 3 ∧
    getRetryDelay (createApiError APISource.claude 429 "") 0 ≤ 300 ∧
    getRetryDelay (createApiError APISource.github 409 "") 1 = 10 :=
  retry_delay_monotone_capped (createApiError APISource.claude 429 "") 0 3
    (by decide)

/-! ## C8 -/

namespace Pool

theorem acceptableHealth_iff {h : HealthStatus} :
    acceptableHealth h = true ↔ h ≠ HealthStatus.unhealthy := by
  cases h <;> simp [acceptableHealth]

theorem find?_append_first {α : Type} {p : α → Bool} {e : α}
    (l1 l2 : List α) (h1 : ∀ d ∈ l1, p d = false) (he : p e = true) :
    (l1 ++ e :: l2).find? p = some e := by
  induction l1 with
  | nil => simpa using List.find?_cons_of_pos l2 he
  | cons a tl ih =>
      have ha : p a = false := h1 a (List.mem_cons_self a tl)
      rw [List.cons_append, List.find?_cons_of_neg _ (by simp [ha])]
      exact ih (fun d hd => h1 d (List.mem_cons_of_mem a hd))

end Pool

open Pool in
/-- C8 counterexample: `get_provider` without a name consults only health,
never cooldown — in a pool whose highest-priority provider is Healthy but
in cooldown while a lower-priority Healthy provider is not in cooldown,
selection returns the provider in cooldown, refuting "never returns a
provider currently in cooldown" (this pool state arises when a provider's
own success path marks it healthy while the pool cooldown has not been
cleared; `get_next_provider`'s healthy-despite-cooldown last resort
acknowledges it). -/
theorem get_provider_ignores_cooldown_counterexample :
    getProvider
        ⟨[⟨"claude", true, HealthStatus.healthy⟩,
          ⟨"gemini", true, HealthStatus.healthy⟩], ["claude"], true⟩ =
      some ⟨"claude", true, HealthStatus.healthy⟩ ∧
    inCooldown
        ⟨[⟨"claude", true, HealthStatus.healthy⟩,
          ⟨"gemini", true, HealthStatus.healthy⟩], ["claude"], true⟩
        "claude" = true ∧
    inCooldown
        ⟨[⟨"claude", true, HealthStatus.healthy⟩,
          ⟨"gemini", true, HealthStatus.healthy⟩], ["claude"], true⟩
        "gemini" = false ∧
    (⟨"gemini", true, HealthStatus.healthy⟩ : ProviderEntry).health ≠
      HealthStatus.unhealthy := by
  decide

open Pool in
/-- C8 (amended): `get_provider` without a name selects on health alone,
ignoring cooldown: it returns the highest-priority enabled provider whose
health is Unknown, Healthy or Degraded (in cooldown or not), returns some
enabled provider as last resort whenever one exists, and raises
"no providers available" exactly when no enabled provider is configured.
The cooldown-skipping rule lives in the failover selector
`get_next_provider`, which never returns a provider in cooldown while
some enabled non-excluded provider is both out of cooldown and not
Unhealthy. -/
theorem provider_selection_characterization :
    (∀ (p : ProviderPool) (l1 : List ProviderEntry) (e : ProviderEntry)
        (l2 : List ProviderEntry),
        p.providers = l1 ++ e :: l2 → e.enabled = true →
        acceptableHealth e.health = true →
        (∀ d ∈ l1, (d.enabled && acceptableHealth d.health) = false) →
        getProvider p = some e) ∧
    (∀ p : ProviderPool,
        (∃ d ∈ p.providers, d.enabled = true) →
        ∃ e, getProvider p = some e ∧ e.enabled = true) ∧
    (∀ p : ProviderPool,
        getProvider p = none ↔ ∀ e ∈ p.providers, e.enabled = false) ∧
    ∀ (p : ProviderPool) (excl : String) (e : ProviderEntry),
      getNextProvider p excl = some e →
      (∃ d ∈ p.providers, d.enabled = true ∧ d.name ≠ excl ∧
        inCooldown p d.name = false ∧ d.health ≠ HealthStatus.unhealthy) →
      e.enabled = true ∧ e.name ≠ excl ∧ inCooldown p e.name = false ∧
        e.health ≠ HealthStatus.unhealthy := by
  refine ⟨?_, ?_, ?_, ?_⟩
  · intro p l1 e l2 hsplit hen hacc hl1
    have hfind : p.providers.find?
        (fun e => e.enabled && acceptableHealth e.health) = some e := by
      rw [hsplit]
      exact find?_append_first l1 l2 hl1 (by simp [hen, hacc])
    simp only [getProvider, hfind]
  · intro p hex
    unfold getProvider
    rcases h1 : p.providers.find?
        (fun e => e.enabled && acceptableHealth e.health) with _ | e1
    · rcases h2 : p.providers.find? (fun e => e.enabled) with _ | e2
      · exfalso
        obtain ⟨d, hdm, hde⟩ := hex
        have := List.find?_eq_none.1 h2 d hdm
        simp [hde] at this
      · exact ⟨e2, by simp only [getProvider, h1, h2],
          by simpa using List.find?_some h2⟩
    · refine ⟨e1, by simp only [getProvider, h1], ?_⟩
      have := List.find?_some h1
      simp only [Bool.and_eq_true] at this
      exact this.1
  · intro p
    constructor
    · intro h e hmem
      unfold getProvider at h
      rcases h1 : p.providers.find?
          (fun e => e.enabled && acceptableHealth e.health) with _ | e1
      · rw [h1] at h
        have := List.find?_eq_none.1 h e hmem
        simpa using this
      · rw [h1] at h
        cases h
    · intro hall
      unfold getProvider
      have h1 : p.providers.find?
          (fun e => e.enabled && acceptableHealth e.health) = none :=
        List.find?_eq_none.2 (fun e hmem => by simp [hall e hmem])
      have h2 : p.providers.find? (fun e => e.enabled) = none :=
        List.find?_eq_none.2 (fun e hmem => by simp [hall e hmem])
      rw [h1, h2]
  · intro p excl e hget hex
    rcases hfo : p.failoverEnabled with _ | _
    · rw [getNextProvider, hfo] at hget
      simp at hget
    · rw [getNextProvider, hfo] at hget
      simp only [Bool.not_true, Bool.false_eq_true, if_false] at hget
      rcases hfind : p.providers.find?
          (fun e => e.enabled && decide (e.name ≠ excl) &&
            !inCooldown p e.name && acceptableHealth e.health) with _ | e1
      · exfalso
        obtain ⟨d, hdm, hd1, hd2, hd3, hd4⟩ := hex
        have := List.find?_eq_none.1 hfind d hdm
        simp [hd1, hd2, hd3, acceptableHealth_iff.2 hd4] at this
      · rw [hfind] at hget
        cases hget
        have := List.find?_some hfind
        simp only [Bool.and_eq_true, decide_eq_true_eq,
          Bool.not_eq_true'] at this
        exact ⟨this.1.1.1, this.1.1.2, this.1.2,
          acceptableHealth_iff.1 this.2⟩

open Pool in
/-- Witness for `provider_selection_characterization` at a concrete pool
with the primary provider unhealthy and in cooldown. -/
theorem provider_selection_characterization_witness :
    getProvider
        ⟨[⟨"claude", true, HealthStatus.unhealthy⟩,
          ⟨"gemini", true, HealthStatus.unknown⟩], ["claude"], true⟩ =
      some ⟨"gemini", true, HealthStatus.unknown⟩ ∧
    (∃ e, getProvider
        ⟨[⟨"claude", true, HealthStatus.unhealthy⟩,
          ⟨"gemini", true, HealthStatus.unknown⟩], ["claude"], true⟩ =
        some e ∧ e.enabled = true) ∧
    (getProvider (⟨[], [], true⟩ : ProviderPool) = none ↔
      ∀ e ∈ ([] : List ProviderEntry), e.enabled = false) ∧
    ((⟨"gemini", true, HealthStatus.unknown⟩ : ProviderEntry).enabled =
        true ∧
      (⟨"gemini", true, HealthStatus.unknown⟩ : ProviderEntry).name ≠
        "claude" ∧
      inCooldown
          ⟨[⟨"claude", true, HealthStatus.unhealthy⟩,
            ⟨"gemini", true, HealthStatus.unknown⟩], ["claude"], true⟩
          "gemini" = false ∧
      (⟨"gemini", true, HealthStatus.unknown⟩ : ProviderEntry).health ≠
        HealthStatus.unhealthy) :=
  ⟨provider_selection_characterization.1
      ⟨[⟨"claude", true, HealthStatus.unhealthy⟩,
        ⟨"gemini", true, HealthStatus.unknown⟩], ["claude"], true⟩
      [⟨"claude", true, HealthStatus.unhealthy⟩]
      ⟨"gemini", true, HealthStatus.unknown⟩ [] rfl rfl (by decide)
      (by decide),
   provider_selection_characterization.2.1
      ⟨[⟨"claude", true, HealthStatus.unhealthy⟩,
        ⟨"gemini", true, HealthStatus.unknown⟩], ["claude"], true⟩
      ⟨⟨"claude", true, HealthStatus.unhealthy⟩, by simp, rfl⟩,
   provider_selection_characterization.2.2.1 ⟨[], [], true⟩,
   provider_selection_characterization.2.2.2
      ⟨[⟨"claude", true, HealthStatus.unhealthy⟩,
        ⟨"gemini", true, HealthStatus.unknown⟩], ["claude"], true⟩
      "claude" ⟨"gemini", true, HealthStatus.unknown⟩ (by decide)
      ⟨⟨"gemini", true, HealthStatus.unknown⟩, by simp, rfl, by decide,
        by decide, by decide⟩⟩

/-! ## C9 -/

open Orchestrator in
/-- C9: an all-no-work round increments the consecutive-empty counter, a
round with any non-empty result resets it to zero (reporting no
termination), a round whose `record_round` verdict is `true` ends the run
immediately, and with threshold 3 three consecutive all-no-work rounds
halt the loop before a fourth round regardless of how many further
rounds were planned. -/
theorem empty_rounds_graceful_termination :
    (∀ (st : BacklogState) (results : List String),
        results.all isNoIssuesResult = true →
        (recordRound st results).2.consecutiveNoIssues =
          st.consecutiveNoIssues + 1) ∧
    (∀ (st : BacklogState) (results : List String),
        results.all isNoIssuesResult = false →
        (recordRound st results).2.consecutiveNoIssues = 0 ∧
        (recordRound st results).1 = false) ∧
    (∀ (st : BacklogState) (r : List String) (rest : List (List String)),
        (recordRound st r).1 = true → roundsIssued st (r :: rest) = 1) ∧
    ∀ rest : List (List String),
      roundsIssued ⟨0, 3⟩
        (["NO_ISSUES", "No unclaimed issues available"] ::
          ["NO_ISSUES", "No unclaimed issues available"] ::
            ["NO_ISSUES", "No unclaimed issues available"] :: rest) = 3 := by
  refine ⟨?_, ?_, ?_, fun rest => rfl⟩
  · intro st results hall
    simp [recordRound, hall]
  · intro st results hall
    simp [recordRound, hall]
  · intro st r rest h
    rcases hr : recordRound st r with ⟨stop, st'⟩
    rw [hr] at h
    simp only at h
    subst h
    simp [roundsIssued, hr]

open Orchestrator in
/-- Witness for `empty_rounds_graceful_termination` at concrete rounds. -/
theorem empty_rounds_graceful_termination_witness :
    (recordRound ⟨0, 3⟩ ["NO_ISSUES"]).2.consecutiveNoIssues = 0 + 1 ∧
    ((recordRound ⟨1, 3⟩ ["Completed issue #4 (12 tools)"]
        ).2.consecutiveNoIssues = 0 ∧
      (recordRound ⟨1, 3⟩ ["Completed issue #4 (12 tools)"]).1 = false) ∧
    roundsIssued ⟨2, 3⟩ (["NO_ISSUES"] :: [["NO_ISSUES"], ["NO_ISSUES"]]) =
      1 :=
  ⟨empty_rounds_graceful_termination.1 ⟨0, 3⟩ ["NO_ISSUES"] (by decide),
   empty_rounds_graceful_termination.2.1 ⟨1, 3⟩
      ["Completed issue #4 (12 tools)"] (by decide),
   empty_rounds_graceful_termination.2.2.1 ⟨2, 3⟩ ["NO_ISSUES"]
      [["NO_ISSUES"], ["NO_ISSUES"]] (by decide)⟩
